import Mathlib

/-!
Shallow embedding of the ion-cannon content pipeline
(src/ion_cannon/processors/validator.py, src/ion_cannon/processors/summarizer.py,
src/ion_cannon/core/collector.py) and proofs about the claims of the
natural-language specification.

Modelling conventions:
* Python dicts of JSON-decoded data are association lists `PyDict` with unique
  keys; `dictGet` is `d[k]` / `d.get(k)`, `dictSet` is `d[k] = v`.
* Floats are rationals `ℚ`; the claims only involve exact decimal values,
  comparisons and clamping, where float and rational semantics agree.
* An LLM completion call is an oracle: its outcome (`CompletionOutcome`) is an
  input to the model, since the network and the model's text are external.
* Exceptions that the source catches are `Except String` values; the carried
  string stands for the exception message and is not otherwise significant.
-/

/-- A JSON value as decoded by `json.loads`. -/
inductive JsonValue where
  | null : JsonValue
  | bool (b : Bool) : JsonValue
  | num (q : ℚ) : JsonValue
  | str (s : String) : JsonValue
  | arr (xs : List JsonValue) : JsonValue
  | obj (fields : List (String × JsonValue)) : JsonValue

/-- A Python dict holding JSON values, as an association list with unique keys. -/
abbrev PyDict := List (String × JsonValue)

/-- `d[k]` / `d.get(k)`: lookup of a key in a dict. -/
def dictGet : PyDict → String → Option JsonValue
  | [], _ => none
  | (k, v) :: rest, key => if k = key then some v else dictGet rest key

/-- `d.get(k, default)`. -/
def dictGetD (d : PyDict) (key : String) (dflt : JsonValue) : JsonValue :=
  (dictGet d key).getD dflt

/-- `k in d`. -/
def dictHas (d : PyDict) (key : String) : Bool :=
  (dictGet d key).isSome

/-- `d[k] = v`: replace the binding in place, or append a fresh one. -/
def dictSet : PyDict → String → JsonValue → PyDict
  | [], key, v => [(key, v)]
  | (k, w) :: rest, key, v =>
    if k = key then (k, v) :: rest else (k, w) :: dictSet rest key v

/-- `{**base, **upd}` (equivalently: building a dict literal whose early
entries come from `base` and whose spread `**upd` comes last). -/
def dictUpdate (base : PyDict) (upd : PyDict) : PyDict :=
  upd.foldl (fun acc kv => dictSet acc kv.1 kv.2) base

/-- Python truthiness of a JSON-decoded value. -/
def truthy : JsonValue → Bool
  | .null => false
  | .bool b => b
  | .num q => q != 0
  | .str s => !s.isEmpty
  | .arr xs => !xs.isEmpty
  | .obj fs => !fs.isEmpty

/-- Lower-casing of a string, character by character (`str.lower()` for the
ASCII data the keyword filter handles). -/
def pyLower (s : String) : String :=
  ⟨s.data.map Char.toLower⟩

/-- Python `min(a, b)`. -/
def pyMin (a b : ℚ) : ℚ :=
  if a ≤ b then a else b

/-- Python `max(a, b)`. -/
def pyMax (a b : ℚ) : ℚ :=
  if b ≤ a then a else b

/-- Python `float(x)` on a JSON-decoded value (the conversions the validator
can actually receive; numeric strings would also convert in Python, but no
code path in the claims produces one). Returns `none` when `float()` raises. -/
def pyFloat : JsonValue → Option ℚ
  | .num q => some q
  | .bool b => some (if b then 1 else 0)
  | _ => none

/-- A validation/summarization LLM backend handle (validator1 is backend A,
validator2 is backend B in the specification's terminology). -/
inductive LLMBackend where
  | A : LLMBackend
  | B : LLMBackend
deriving DecidableEq, Repr

/-- Outcome of one `acomplete` round-trip, as seen by `_safe_llm_completion`:
the call raised / returned no usable text, the text failed `json.loads`,
or it parsed to a JSON value. -/
inductive CompletionOutcome where
  | callFailed : CompletionOutcome
  | unparseable : CompletionOutcome
  | parsed (j : JsonValue) : CompletionOutcome

/-- The slice of `ion_cannon.config.settings` the validator reads. -/
structure SettingsModel where
  LLM_CONFIDENCE_THRESHOLD : ℚ
  LLM_VALIDATOR_CONFIDENCE : ℚ

/-- The default values from settings.py (threshold 0.9, fallback 0.5). -/
def defaultSettings : SettingsModel :=
  { LLM_CONFIDENCE_THRESHOLD := mkRat 9 10, LLM_VALIDATOR_CONFIDENCE := mkRat 1 2 }

/-- `ContentValidator._safe_llm_completion`: normalize one completion outcome.
A missing LLM, a failed call, unparseable text, a non-dict result, or a
non-convertible confidence all yield `none`; otherwise the parsed dict is
returned with `confidence` defaulted to 0.9 and clamped to [0,1], and
`key_aspects` defaulted to the empty list. -/
def safe_llm_completion (llm : Option LLMBackend) (outcome : CompletionOutcome) :
    Option PyDict :=
  match llm with
  | none => none
  | some _ =>
    match outcome with
    | .callFailed => none
    | .unparseable => none
    | .parsed j =>
      match j with
      | .obj fields =>
        match pyFloat (dictGetD fields "confidence" (.num (mkRat 9 10))) with
        | none => none
        | some c =>
          let f1 := dictSet fields "confidence" (.num (pyMax 0 (pyMin 1 c)))
          let f2 := if dictHas f1 "key_aspects" then f1
                    else dictSet f1 "key_aspects" (.arr [])
          some f2
      | _ => none

/-- The mutable state of a `ContentValidator` instance. -/
structure ContentValidator where
  use_multi_llm : Bool
  verbose : Bool
  validator1 : Option LLMBackend
  validator2 : Option LLMBackend
  validator : Option LLMBackend
deriving DecidableEq, Repr

/-- `ContentValidator.__init__` / `_setup_llms`: `avail1`/`avail2` are what
`LLMFactory.create_validation_llms(require_both=False)` returns in multi mode;
`single` is what `create_llm(require_llm=False)` returns in single mode. -/
def setup_llms (use_multi : Bool) (verbose : Bool)
    (avail1 avail2 single : Option LLMBackend) : ContentValidator :=
  if use_multi then
    if avail1.isSome && avail2.isSome then
      { use_multi_llm := true, verbose := verbose,
        validator1 := avail1, validator2 := avail2, validator := none }
    else if avail1.isSome then
      { use_multi_llm := false, verbose := verbose,
        validator1 := avail1, validator2 := avail2, validator := avail1 }
    else
      { use_multi_llm := true, verbose := verbose,
        validator1 := avail1, validator2 := avail2, validator := none }
  else
    { use_multi_llm := false, verbose := verbose,
      validator1 := none, validator2 := none, validator := single }

/-- `ContentValidator._check_relevance`: reject when `result["confidence"]`
is below the threshold, else return `result["is_relevant"]` as-is.
`Except.error` models the `KeyError`/`TypeError` the lookups can raise
(caught by `process`'s outer handler). -/
def check_relevance (s : SettingsModel) (result : PyDict) :
    Except String JsonValue :=
  match dictGet result "confidence" with
  | none => .error "confidence"
  | some (.num c) =>
    if c < s.LLM_CONFIDENCE_THRESHOLD then .ok (.bool false)
    else
      match dictGet result "is_relevant" with
      | none => .error "is_relevant"
      | some r => .ok r
  | some (.bool b) =>
    if (if b then (1 : ℚ) else 0) < s.LLM_CONFIDENCE_THRESHOLD then .ok (.bool false)
    else
      match dictGet result "is_relevant" with
      | none => .error "is_relevant"
      | some r => .ok r
  | some _ => .error "TypeError"

/-- The dict `ContentValidator.process` returns, with the keys every branch
of the source writes (`primary_topic`/`key_aspects` are absent in the
skipped/error branches). -/
structure ValidationOutput where
  is_relevant : JsonValue
  confidence : ℚ
  primary_topic : Option JsonValue
  reason : JsonValue
  key_aspects : Option JsonValue
  validation_status : String

/-- Python `a and b` on JSON values: first falsy operand, else the second. -/
def pyAnd (a b : JsonValue) : JsonValue :=
  if truthy a then b else a

/-- `result[k]`, raising `KeyError` (as `Except.error`) when absent. -/
def getKey (d : PyDict) (k : String) : Except String JsonValue :=
  match dictGet d k with
  | some v => .ok v
  | none => .error k

/-- `result[k]` read as a number (for `min` over confidences). -/
def getNum (d : PyDict) (k : String) : Except String ℚ :=
  match dictGet d k with
  | some (.num c) => .ok c
  | some (.bool b) => .ok (if b then 1 else 0)
  | some _ => .error "TypeError"
  | none => .error k

/-- The merged dict built by the multi-LLM branch of `process`
(validator.py lines 192-206), evaluated in source order; `Except.error`
models an escaping `KeyError`. -/
def multiOutput (s : SettingsModel) (r1 r2 : PyDict) :
    Except String ValidationOutput :=
  match check_relevance s r1 with
  | .error e => .error e
  | .ok c1v =>
    match (if truthy c1v then check_relevance s r2 else .ok c1v) with
    | .error e => .error e
    | .ok icr =>
      match getNum r1 "confidence" with
      | .error e => .error e
      | .ok conf1 =>
        match getNum r2 "confidence" with
        | .error e => .error e
        | .ok conf2 =>
          match getKey r1 "primary_topic" with
          | .error e => .error e
          | .ok pt =>
            match (if truthy icr then getKey r1 "reason"
                   else .ok (.str "Confidence threshold not met")) with
            | .error e => .error e
            | .ok rs =>
              match (if truthy icr then getKey r1 "key_aspects"
                     else .ok (.arr [])) with
              | .error e => .error e
              | .ok ka =>
                .ok { is_relevant := icr, confidence := pyMin conf1 conf2,
                      primary_topic := some pt, reason := rs,
                      key_aspects := some ka, validation_status := "multi_llm" }

/-- The dict built by the single-validator branch of `process`
(validator.py lines 213-222). -/
def singleOutput (s : SettingsModel) (r : PyDict) :
    Except String ValidationOutput :=
  match check_relevance s r with
  | .error e => .error e
  | .ok icr =>
    match getNum r "confidence" with
    | .error e => .error e
    | .ok conf =>
      match getKey r "primary_topic" with
      | .error e => .error e
      | .ok pt =>
        match (if truthy icr then getKey r "reason"
               else .ok (.str "Confidence threshold not met")) with
        | .error e => .error e
        | .ok rs =>
          match (if truthy icr then getKey r "key_aspects"
                 else .ok (.arr [])) with
          | .error e => .error e
          | .ok ka =>
            .ok { is_relevant := icr, confidence := conf,
                  primary_topic := some pt, reason := rs,
                  key_aspects := some ka, validation_status := "single_llm" }

/-- The "No validators available" dict (validator.py lines 175-180). -/
def skippedOutput (s : SettingsModel) : ValidationOutput :=
  { is_relevant := .bool false, confidence := s.LLM_VALIDATOR_CONFIDENCE,
    primary_topic := none, reason := .str "No validators available",
    key_aspects := none, validation_status := "skipped" }

/-- The "All validation attempts failed" dict (validator.py lines 226-231). -/
def errorAllFailed (s : SettingsModel) : ValidationOutput :=
  { is_relevant := .bool false, confidence := s.LLM_VALIDATOR_CONFIDENCE,
    primary_topic := none, reason := .str "Validation failed",
    key_aspects := none, validation_status := "error" }

/-- The dict returned by `process`'s outer exception handler
(validator.py lines 235-240). -/
def errorExcept (s : SettingsModel) (msg : String) : ValidationOutput :=
  { is_relevant := .bool false, confidence := s.LLM_VALIDATOR_CONFIDENCE,
    primary_topic := none, reason := .str ("Error: " ++ msg),
    key_aspects := none, validation_status := "error" }

/-- Python truthiness of `_safe_llm_completion`'s return value
(`if not result1:` — `None` and the empty dict are falsy). -/
def optTruthy : Option PyDict → Bool
  | none => false
  | some d => !d.isEmpty

/-- `ion_cannon.collectors.base.ContentItem` (a pydantic model; `title`
defaults to the empty string, `date` to `None`). -/
structure ContentItem where
  source : String
  content : String
  url : String
  title : String := ""
  date : Option String := none
  metadata : List (String × JsonValue) := []

/-- One `process` call's observable effect: the returned dict, the validator
state after the call, the unconsumed completion outcomes, and the list of
backends an `acomplete` call was issued to, in order. -/
structure ProcessOut where
  output : ValidationOutput
  state : ContentValidator
  rest : List CompletionOutcome
  calls : List (Option LLMBackend)

/-- Pop the outcome for the next completion call from the oracle stream. -/
def takeOutcome : List CompletionOutcome → CompletionOutcome × List CompletionOutcome
  | [] => (.callFailed, [])
  | o :: rest => (o, rest)

/-- The single-validator tail of `process` (validator.py lines 208-231):
choose `validator1` in multi mode else `validator`, make one completion call
if a backend exists, and fall back to the error dict otherwise. -/
def singlePhase (s : SettingsModel) (v : ContentValidator)
    (os : List CompletionOutcome) : ProcessOut :=
  match (if v.use_multi_llm then v.validator1 else v.validator) with
  | some llm =>
    let result := safe_llm_completion (some llm) (takeOutcome os).1
    { output :=
        if optTruthy result then
          match singleOutput s (result.getD []) with
          | .ok out => out
          | .error e => errorExcept s e
        else errorAllFailed s,
      state := v, rest := (takeOutcome os).2, calls := [some llm] }
  | none => { output := errorAllFailed s, state := v, rest := os, calls := [] }

/-- `ContentValidator.process`. The item's text only feeds the prompt, whose
answer the outcome stream already models. In the multi branch: backend A
failing demotes the instance permanently (`validator := validator1`,
`use_multi_llm := false`) and retries via the single-validator tail;
backend B failing falls through to the single-validator tail with the state
unchanged. A `KeyError` escaping the merge is caught into the error dict. -/
def process (s : SettingsModel) (v : ContentValidator) (_item : ContentItem)
    (os : List CompletionOutcome) : ProcessOut :=
  if (v.use_multi_llm && !(v.validator1.isSome || v.validator2.isSome))
      || (!v.use_multi_llm && !v.validator.isSome) then
    { output := skippedOutput s, state := v, rest := os, calls := [] }
  else if v.use_multi_llm && v.validator1.isSome && v.validator2.isSome then
    let o1 := (takeOutcome os).1
    let os1 := (takeOutcome os).2
    let result1 := safe_llm_completion v.validator1 o1
    if !optTruthy result1 then
      let v2 := { v with validator := v.validator1, use_multi_llm := false }
      let sp := singlePhase s v2 os1
      { output := sp.output, state := sp.state, rest := sp.rest,
        calls := v.validator1 :: sp.calls }
    else
      let o2 := (takeOutcome os1).1
      let os2 := (takeOutcome os1).2
      let result2 := safe_llm_completion v.validator2 o2
      if optTruthy result2 then
        { output :=
            match multiOutput s (result1.getD []) (result2.getD []) with
            | .ok out => out
            | .error e => errorExcept s e,
          state := v, rest := os2, calls := [v.validator1, v.validator2] }
      else
        let sp := singlePhase s v os2
        { output := sp.output, state := sp.state, rest := sp.rest,
          calls := v.validator1 :: v.validator2 :: sp.calls }
  else
    singlePhase s v os

/-- Substring test: Python `needle in hay` on strings. -/
def strContainsAux (needle : List Char) : List Char → Bool
  | [] => needle.isEmpty
  | c :: rest => needle.isPrefixOf (c :: rest) || strContainsAux needle rest

/-- `needle in hay` for strings. -/
def strContains (hay needle : String) : Bool :=
  strContainsAux needle.toList hay.toList

/-- `ContentCollector._matches_keywords` (collector.py lines 86-108): with no
keywords configured every item passes (with a logged warning); otherwise keep
the item iff some keyword, lower-cased, occurs in the lower-cased content or
the lower-cased title. -/
def matches_keywords (keywords : List String) (item : ContentItem) : Bool :=
  if keywords.isEmpty then true
  else
    let content_lower := pyLower item.content
    let title_lower := pyLower item.title
    keywords.any fun kw =>
      strContains content_lower (pyLower kw) || strContains title_lower (pyLower kw)

/-- A naive `datetime` (timezone information already discarded, as
collector.py line 130 does). -/
structure NaiveDT where
  year : Int
  month : Nat
  day : Nat
  hour : Nat
  minute : Nat
  second : Nat
deriving DecidableEq, Repr

/-- Accumulator of fields recognized so far by one `strptime` format, with
Python's `strptime` defaults (year 1900, January 1st, midnight). -/
structure ParseAcc where
  year : Nat := 1900
  month : Nat := 1
  day : Nat := 1
  hour : Nat := 0
  minute : Nat := 0
  second : Nat := 0

/-- The tokens the six formats of `_is_older_than_10_days` are built from. -/
inductive FmtTok where
  | lit (l : String) : FmtTok
  | wday : FmtTok
  | day : FmtTok
  | monName : FmtTok
  | monNum : FmtTok
  | year4 : FmtTok
  | year2 : FmtTok
  | hourT : FmtTok
  | minuteT : FmtTok
  | secondT : FmtTok
  | tzOffset : FmtTok
  | tzName : FmtTok

/-- Match a literal (case-insensitively, as `strptime` compiles its regexes
with IGNORECASE; the literal is given lower-cased). -/
def parseLit : List Char → List Char → Option (List Char)
  | [], cs => some cs
  | _ :: _, [] => none
  | l :: ls, c :: cs => if c.toLower = l then parseLit ls cs else none

/-- Match the first of a list of named alternatives, returning its value. -/
def parseNames : List (String × Nat) → List Char → Option (Nat × List Char)
  | [], _ => none
  | (n, v) :: rest, cs =>
    match parseLit n.toList cs with
    | some cs2 => some (v, cs2)
    | none => parseNames rest cs

/-- A 1- or 2-digit number in `[lo, hi]`, preferring two digits and backing
off to one when the two-digit reading is out of range (mirroring the
alternation order of `strptime`'s regexes for `%d`, `%m`, `%H`, `%M`, `%S`). -/
def parseNum2 (lo hi : Nat) : List Char → Option (Nat × List Char)
  | [] => none
  | [c] =>
    if c.isDigit then
      let v := c.toNat - 48
      if lo ≤ v ∧ v ≤ hi then some (v, []) else none
    else none
  | c1 :: c2 :: rest =>
    if c1.isDigit then
      let v1 := c1.toNat - 48
      if c2.isDigit then
        let v2 := v1 * 10 + (c2.toNat - 48)
        if lo ≤ v2 ∧ v2 ≤ hi then some (v2, rest)
        else if lo ≤ v1 ∧ v1 ≤ hi then some (v1, c2 :: rest)
        else none
      else if lo ≤ v1 ∧ v1 ≤ hi then some (v1, c2 :: rest)
      else none
    else none

/-- `%Y`: exactly four digits. -/
def parseYear4 : List Char → Option (Nat × List Char)
  | a :: b :: c :: d :: rest =>
    if a.isDigit && b.isDigit && c.isDigit && d.isDigit then
      some ((a.toNat - 48) * 1000 + (b.toNat - 48) * 100 +
            (c.toNat - 48) * 10 + (d.toNat - 48), rest)
    else none
  | _ => none

/-- `%y`: exactly two digits; 00-68 map into the 2000s, 69-99 into the 1900s. -/
def parseYear2 : List Char → Option (Nat × List Char)
  | a :: b :: rest =>
    if a.isDigit && b.isDigit then
      let v := (a.toNat - 48) * 10 + (b.toNat - 48)
      some (if v ≤ 68 then 2000 + v else 1900 + v, rest)
    else none
  | _ => none

/-- `%z`: `Z` (upper case only) or a sign, two digits, an optional colon and
two more digits. The offset is parsed for format matching and then discarded,
exactly as `item_date.replace(tzinfo=None)` discards it. -/
def parseTzOffset : List Char → Option (List Char)
  | [] => none
  | 'Z' :: rest => some rest
  | c :: rest =>
    if c = '+' || c = '-' then
      match rest with
      | d1 :: d2 :: rest2 =>
        if d1.isDigit && d2.isDigit then
          match rest2 with
          | ':' :: d3 :: d4 :: rest3 =>
            if d3.isDigit && d4.isDigit then some rest3 else none
          | d3 :: d4 :: rest3 =>
            if d3.isDigit && d4.isDigit then some rest3 else none
          | _ => none
        else none
      | _ => none
    else none

/-- `%a`: abbreviated weekday names (values unused by `strptime` here). -/
def wdayNames : List (String × Nat) :=
  [("mon", 0), ("tue", 1), ("wed", 2), ("thu", 3),
   ("fri", 4), ("sat", 5), ("sun", 6)]

/-- `%b`: abbreviated month names with their month numbers. -/
def monNames : List (String × Nat) :=
  [("jan", 1), ("feb", 2), ("mar", 3), ("apr", 4), ("may", 5), ("jun", 6),
   ("jul", 7), ("aug", 8), ("sep", 9), ("oct", 10), ("nov", 11), ("dec", 12)]

/-- `%Z`: the timezone names the formats in use can meet. -/
def tzNames : List (String × Nat) :=
  [("utc", 0), ("gmt", 0)]

/-- Run one format's token list over the input characters. -/
def runToks : List FmtTok → ParseAcc → List Char → Option (ParseAcc × List Char)
  | [], acc, cs => some (acc, cs)
  | .lit l :: ts, acc, cs =>
    match parseLit l.toList cs with
    | some cs2 => runToks ts acc cs2
    | none => none
  | .wday :: ts, acc, cs =>
    match parseNames wdayNames cs with
    | some (_, cs2) => runToks ts acc cs2
    | none => none
  | .day :: ts, acc, cs =>
    match parseNum2 1 31 cs with
    | some (v, cs2) => runToks ts { acc with day := v } cs2
    | none => none
  | .monName :: ts, acc, cs =>
    match parseNames monNames cs with
    | some (v, cs2) => runToks ts { acc with month := v } cs2
    | none => none
  | .monNum :: ts, acc, cs =>
    match parseNum2 1 12 cs with
    | some (v, cs2) => runToks ts { acc with month := v } cs2
    | none => none
  | .year4 :: ts, acc, cs =>
    match parseYear4 cs with
    | some (v, cs2) => runToks ts { acc with year := v } cs2
    | none => none
  | .year2 :: ts, acc, cs =>
    match parseYear2 cs with
    | some (v, cs2) => runToks ts { acc with year := v } cs2
    | none => none
  | .hourT :: ts, acc, cs =>
    match parseNum2 0 23 cs with
    | some (v, cs2) => runToks ts { acc with hour := v } cs2
    | none => none
  | .minuteT :: ts, acc, cs =>
    match parseNum2 0 59 cs with
    | some (v, cs2) => runToks ts { acc with minute := v } cs2
    | none => none
  | .secondT :: ts, acc, cs =>
    match parseNum2 0 61 cs with
    | some (v, cs2) => runToks ts { acc with second := v } cs2
    | none => none
  | .tzOffset :: ts, acc, cs =>
    match parseTzOffset cs with
    | some cs2 => runToks ts acc cs2
    | none => none
  | .tzName :: ts, acc, cs =>
    match parseNames tzNames cs with
    | some (_, cs2) => runToks ts acc cs2
    | none => none

/-- Gregorian leap year. -/
def isLeapYear (y : Nat) : Bool :=
  (y % 4 = 0 && y % 100 ≠ 0) || y % 400 = 0

/-- Length of a month, for the validity check `datetime(...)` performs. -/
def daysInMonth (y m : Nat) : Nat :=
  if m = 2 then (if isLeapYear y then 29 else 28)
  else if m = 4 ∨ m = 6 ∨ m = 9 ∨ m = 11 then 30
  else 31

/-- `datetime.strptime(ds, fmt)` for one format: the whole string must be
consumed, and the recognized fields must form a valid `datetime` (an invalid
combination raises `ValueError`, which the format loop treats the same as a
non-match). -/
def strptime (toks : List FmtTok) (ds : String) : Option NaiveDT :=
  match runToks toks {} ds.toList with
  | some (acc, []) =>
    if 1 ≤ acc.year ∧ 1 ≤ acc.month ∧ acc.month ≤ 12 ∧ 1 ≤ acc.day ∧
        acc.day ≤ daysInMonth acc.year acc.month ∧ acc.hour ≤ 23 ∧
        acc.minute ≤ 59 ∧ acc.second ≤ 59 then
      some ⟨Int.ofNat acc.year, acc.month, acc.day, acc.hour, acc.minute, acc.second⟩
    else none
  | _ => none

/-- `"%a, %d %b %Y %H:%M:%S %z"` (e.g. `Mon, 16 Sep 2024 09:00:00 +0000`). -/
def fmt1 : List FmtTok :=
  [.wday, .lit ", ", .day, .lit " ", .monName, .lit " ", .year4, .lit " ",
   .hourT, .lit ":", .minuteT, .lit ":", .secondT, .lit " ", .tzOffset]

/-- `"%a, %d %b %y %H:%M:%S %z"` (e.g. `Tue, 14 Jan 25 12:00:00 +0000`). -/
def fmt2 : List FmtTok :=
  [.wday, .lit ", ", .day, .lit " ", .monName, .lit " ", .year2, .lit " ",
   .hourT, .lit ":", .minuteT, .lit ":", .secondT, .lit " ", .tzOffset]

/-- `"%a, %d %b %Y %H:%M:%S GMT"` (e.g. `Wed, 28 Aug 2024 04:30:00 GMT`). -/
def fmt3 : List FmtTok :=
  [.wday, .lit ", ", .day, .lit " ", .monName, .lit " ", .year4, .lit " ",
   .hourT, .lit ":", .minuteT, .lit ":", .secondT, .lit " gmt"]

/-- `"%a, %d %b %Y %H:%M:%S UTC"` (e.g. `Wed, 27 Nov 2024 14:00:00 UTC`). -/
def fmt4 : List FmtTok :=
  [.wday, .lit ", ", .day, .lit " ", .monName, .lit " ", .year4, .lit " ",
   .hourT, .lit ":", .minuteT, .lit ":", .secondT, .lit " utc"]

/-- `"%Y-%m-%d %H:%M:%S %Z"` (e.g. `2024-12-09 11:05:09 UTC`). -/
def fmt5 : List FmtTok :=
  [.year4, .lit "-", .monNum, .lit "-", .day, .lit " ",
   .hourT, .lit ":", .minuteT, .lit ":", .secondT, .lit " ", .tzName]

/-- `"%Y-%m-%d"` (e.g. `2024-12-09`). -/
def fmt6 : List FmtTok :=
  [.year4, .lit "-", .monNum, .lit "-", .day]

/-- The ordered `date_formats` list of `_is_older_than_10_days`. -/
def date_formats : List (List FmtTok) :=
  [fmt1, fmt2, fmt3, fmt4, fmt5, fmt6]

/-- Try the formats in order; the first that parses wins. -/
def tryFormatsAux (ds : String) : List (List FmtTok) → Option NaiveDT
  | [] => none
  | f :: rest =>
    match strptime f ds with
    | some dt => some dt
    | none => tryFormatsAux ds rest

/-- The `for date_format in date_formats: try ... except ValueError` loop. -/
def tryFormats (ds : String) : Option NaiveDT :=
  tryFormatsAux ds date_formats

/-- Days since 1970-01-01 of a civil date (proleptic Gregorian). -/
def daysFromCivil (y : Int) (m d : Nat) : Int :=
  let y2 : Int := if m ≤ 2 then y - 1 else y
  let era : Int := Int.fdiv y2 400
  let yoe : Int := y2 - era * 400
  let mp : Int := if 2 < m then (m : Int) - 3 else (m : Int) + 9
  let doy : Int := Int.fdiv (153 * mp + 2) 5 + (d : Int) - 1
  let doe : Int := yoe * 365 + Int.fdiv yoe 4 - Int.fdiv yoe 100 + doy
  era * 146097 + doe - 719468

/-- Seconds since the epoch of a naive datetime. -/
def toSeconds (t : NaiveDT) : Int :=
  86400 * daysFromCivil t.year t.month t.day +
    3600 * (t.hour : Int) + 60 * (t.minute : Int) + (t.second : Int)

/-- `(a - b).days` on naive datetimes: `timedelta.days` floor-divides. -/
def timedeltaDays (a b : NaiveDT) : Int :=
  Int.fdiv (toSeconds a - toSeconds b) 86400

/-- `ContentCollector._is_older_than_10_days` (collector.py lines 110-138):
`None`/empty dates count as not old; otherwise the first matching format
parses the date (timezone dropped) and `(now - item_date).days > 10` decides;
no format matching raises `ValueError` (modelled as `Except.error`). -/
def is_older_than_10_days (now : NaiveDT) (date_str : Option String) :
    Except String Bool :=
  match date_str with
  | none => .ok false
  | some ds =>
    if ds.isEmpty then .ok false
    else
      match tryFormats ds with
      | some item_date => .ok (timedeltaDays now item_date > 10)
      | none => .error ("Date format for " ++ ds ++ " not recognized")

/-- The recency-filter loop of `process_content` (collector.py lines 173-180):
it runs outside any per-item exception handler, so the first unrecognized
date aborts the whole traversal. -/
def date_filter (now : NaiveDT) : List ContentItem → Except String (List ContentItem)
  | [] => .ok []
  | item :: rest =>
    match is_older_than_10_days now item.date with
    | .error e => .error e
    | .ok older =>
      match date_filter now rest with
      | .error e => .error e
      | .ok tail => .ok (if older then tail else item :: tail)

/-- `ContentSummarizer.process` (summarizer.py lines 51-82): without a
backend, a fixed skipped dict; with one, the parsed JSON object tagged
`success`, or the fixed error dict when the call, the parse, or the tagging
of a non-dict result fails. `outcome` is `none` when an exception occurred. -/
def summarizer_process (llm : Option LLMBackend) (item : ContentItem)
    (outcome : Option JsonValue) : PyDict :=
  match llm with
  | none =>
    [("title", .str (if item.title.isEmpty then "Untitled" else item.title)),
     ("summary", .str "Summarization skipped - no LLM available"),
     ("insight_take", .str "No insights available"),
     ("summarization_status", .str "skipped")]
  | some _ =>
    match outcome with
    | some (.obj fields) => dictSet fields "summarization_status" (.str "success")
    | _ =>
      [("title", .str (if item.title.isEmpty then "Error Processing Title" else item.title)),
       ("summary", .str "Error generating summary"),
       ("insight_take", .str "Error generating insights"),
       ("error", .str "exception"),
       ("summarization_status", .str "error")]

/-- The result record of collector.py lines 193-199: a dict literal whose
item-derived entries come first and whose `**summary` spread comes last. -/
def build_processed_item (item : ContentItem) (summary : PyDict) : PyDict :=
  dictUpdate
    [("url", .str item.url),
     ("title", if item.title.isEmpty then dictGetD summary "title" (.str "Untitled")
               else .str item.title),
     ("source", .str item.source),
     ("date", match item.date with | some d => .str d | none => .null)]
    summary

/-- Pop the next summarizer outcome from its oracle stream. -/
def takeSummOutcome : List (Option JsonValue) →
    Option JsonValue × List (Option JsonValue)
  | [] => (none, [])
  | o :: rest => (o, rest)

/-- The validate-then-summarize loop of `process_content` (collector.py
lines 185-208): sequential, threading the validator state; only items whose
validation dict has a truthy `is_relevant` are summarized and kept. -/
def llm_loop (s : SettingsModel) (sumLLM : Option LLMBackend) :
    ContentValidator → List CompletionOutcome → List (Option JsonValue) →
    List ContentItem → List PyDict
  | _, _, _, [] => []
  | v, vs, ss, item :: rest =>
    let st := process s v item vs
    if truthy st.output.is_relevant then
      let so := (takeSummOutcome ss).1
      let ss2 := (takeSummOutcome ss).2
      let summary := summarizer_process sumLLM item so
      build_processed_item item summary :: llm_loop s sumLLM st.state st.rest ss2 rest
    else
      llm_loop s sumLLM st.state st.rest ss rest

/-- `ContentCollector.process_content` (collector.py lines 140-219): keyword
filter, then the recency filter (whose `ValueError` propagates out of the
whole call), then the per-item validate/summarize loop. -/
def process_content (s : SettingsModel) (kws : List String) (now : NaiveDT)
    (v : ContentValidator) (sumLLM : Option LLMBackend)
    (vs : List CompletionOutcome) (ss : List (Option JsonValue))
    (content : List ContentItem) : Except String (List PyDict) :=
  if content.isEmpty then .ok []
  else
    let keyword_matches := content.filter (matches_keywords kws)
    match date_filter now keyword_matches with
    | .error e => .error e
    | .ok recent_items => .ok (llm_loop s sumLLM v vs ss recent_items)

/-- The backend accept decision of `_check_relevance`, phrased positively:
the confidence meets the threshold and the backend claims relevance. -/
def accept (s : SettingsModel) (c : ℚ) (b : Bool) : Bool :=
  decide (s.LLM_CONFIDENCE_THRESHOLD ≤ c) && b

/-- A multi-mode validator over backends A and B, as `--multi-llm` builds it
when both factory calls succeed. -/
def multiValidator : ContentValidator :=
  setup_llms true false (some .A) (some .B) none

/-- A parseable, accepting backend result (confidence 0.95, relevant). -/
def relevantDict : PyDict :=
  [("is_relevant", .bool true), ("confidence", .num (mkRat 95 100)),
   ("primary_topic", .str "agentic attacks"), ("reason", .str "on topic"),
   ("key_aspects", .arr [.str "prompt injection"])]

/-- A parseable, low-confidence backend result (confidence 0.40, relevant). -/
def lowConfDict : PyDict :=
  [("is_relevant", .bool true), ("confidence", .num (mkRat 4 10)),
   ("primary_topic", .str "agentic attacks"), ("reason", .str "weak signal"),
   ("key_aspects", .arr [])]

/-- A sample collected item. -/
def sampleItem : ContentItem :=
  { source := "rss", content := "ai security news", url := "https://x/1",
    title := "story", date := none, metadata := [] }

theorem dictGet_dictSet_self (d : PyDict) (k : String) (v : JsonValue) :
    dictGet (dictSet d k v) k = some v := by
  induction d with
  | nil => simp [dictSet, dictGet]
  | cons kv rest ih =>
    obtain ⟨k0, v0⟩ := kv
    by_cases h : k0 = k
    · simp [dictSet, dictGet, h]
    · simp [dictSet, dictGet, h, ih]

theorem dictGet_dictSet_ne (d : PyDict) (k k2 : String) (v : JsonValue)
    (h : k2 ≠ k) : dictGet (dictSet d k v) k2 = dictGet d k2 := by
  have h' : ¬ k = k2 := fun hh => h hh.symm
  induction d with
  | nil => simp [dictSet, dictGet, h']
  | cons kv rest ih =>
    obtain ⟨k0, v0⟩ := kv
    by_cases h0 : k0 = k
    · subst h0
      simp [dictSet, dictGet, h']
    · simp [dictSet, dictGet, h0, ih]

theorem dictGet_ne_nil (d : PyDict) (k : String) (v : JsonValue)
    (h : dictGet d k = some v) : d ≠ [] := by
  intro hnil
  subst hnil
  simp [dictGet] at h

theorem dictGet_eq_none_of_not_mem (d : PyDict) (k : String)
    (h : k ∉ d.map Prod.fst) : dictGet d k = none := by
  induction d with
  | nil => rfl
  | cons kv rest ih =>
    obtain ⟨k0, v0⟩ := kv
    simp only [List.map_cons, List.mem_cons] at h
    push_neg at h
    simp [dictGet, Ne.symm h.1, ih h.2]

theorem dictGet_dictUpdate (base upd : PyDict) (k : String)
    (hnd : (upd.map Prod.fst).Nodup) :
    dictGet (dictUpdate base upd) k = (dictGet upd k).or (dictGet base k) := by
  induction upd generalizing base with
  | nil => simp [dictUpdate, dictGet, Option.or]
  | cons kv rest ih =>
    obtain ⟨k0, v0⟩ := kv
    simp only [List.map_cons, List.nodup_cons] at hnd
    have hstep : dictUpdate base ((k0, v0) :: rest)
        = dictUpdate (dictSet base k0 v0) rest := rfl
    rw [hstep, ih (dictSet base k0 v0) hnd.2]
    by_cases h : k0 = k
    · subst h
      have hrest : dictGet rest k0 = none :=
        dictGet_eq_none_of_not_mem rest k0 hnd.1
      simp [dictGet, hrest, Option.or, dictGet_dictSet_self]
    · simp [dictGet, h, dictGet_dictSet_ne base k0 k v0 (fun hh => h hh.symm)]

/-- Evaluation of `_safe_llm_completion` on a parsed object whose confidence
converts: the object comes back with confidence clamped and key_aspects
defaulted. -/
theorem safe_llm_completion_parsed_obj (llm : LLMBackend) (fields : PyDict)
    (c : ℚ)
    (hc : pyFloat (dictGetD fields "confidence" (.num (mkRat 9 10))) = some c) :
    safe_llm_completion (some llm) (.parsed (.obj fields)) =
      some (if dictHas (dictSet fields "confidence"
                (.num (pyMax 0 (pyMin 1 c)))) "key_aspects"
            then dictSet fields "confidence" (.num (pyMax 0 (pyMin 1 c)))
            else dictSet (dictSet fields "confidence"
                (.num (pyMax 0 (pyMin 1 c)))) "key_aspects" (.arr [])) := by
  simp [safe_llm_completion, hc]

/-- C5 — counterexample. The per-backend completion contract does not require
a relevance boolean: a parsed object with only a confidence is returned as a
(partial) result, not turned into `None` as the claim states. -/
theorem contract_missing_relevance_not_rejected :
    safe_llm_completion (some .A) (.parsed (.obj [("confidence", .num (mkRat 1 2))]))
      = some [("confidence", .num (mkRat 1 2)), ("key_aspects", .arr [])] := rfl

/-- C5 — amended: every call failure, unparseable response, non-object result
or non-convertible confidence yields `None` (never an exception), but a parsed
object lacking the relevance boolean is returned with defaults applied, the
missing boolean surfacing only later in the caller. -/
theorem contract_total_failure_yields_none (llm : LLMBackend) (fields : PyDict)
    (c : ℚ)
    (hconf : pyFloat (dictGetD fields "confidence" (.num (mkRat 9 10))) = some c)
    (hno : dictGet fields "is_relevant" = none) :
    safe_llm_completion (some llm) .callFailed = none ∧
    safe_llm_completion (some llm) .unparseable = none ∧
    (∀ j : JsonValue, (∀ fs, j ≠ .obj fs) →
      safe_llm_completion (some llm) (.parsed j) = none) ∧
    (∀ fs : PyDict,
      pyFloat (dictGetD fs "confidence" (.num (mkRat 9 10))) = none →
      safe_llm_completion (some llm) (.parsed (.obj fs)) = none) ∧
    ∃ d, safe_llm_completion (some llm) (.parsed (.obj fields)) = some d ∧
      dictGet d "is_relevant" = none := by
  refine ⟨rfl, rfl, ?_, ?_, ?_⟩
  · intro j hne
    cases j with
    | obj fs => exact absurd rfl (hne fs)
    | null => rfl
    | bool b => rfl
    | num q => rfl
    | str s2 => rfl
    | arr xs => rfl
  · intro fs hnone
    simp [safe_llm_completion, hnone]
  · refine ⟨_, safe_llm_completion_parsed_obj llm fields c hconf, ?_⟩
    have h1 : dictGet (dictSet fields "confidence" (.num (pyMax 0 (pyMin 1 c))))
        "is_relevant" = none := by
      rw [dictGet_dictSet_ne _ _ _ _ (by decide)]
      exact hno
    by_cases hk : dictHas (dictSet fields "confidence"
        (.num (pyMax 0 (pyMin 1 c)))) "key_aspects"
    · simp only [hk, if_true]
      exact h1
    · simp only [Bool.not_eq_true] at hk
      simp only [hk, Bool.false_eq_true, if_false]
      rw [dictGet_dictSet_ne _ _ _ _ (by decide)]
      exact h1

/-- C5 — witness for the amended theorem at a concrete partial object. -/
theorem contract_total_failure_yields_none_witness :
    safe_llm_completion (some .B) .callFailed = none ∧
    safe_llm_completion (some .B) (.parsed (.str "yes")) = none ∧
    ∃ d, safe_llm_completion (some .B)
        (.parsed (.obj [("confidence", .num (mkRat 1 2))])) = some d ∧
      dictGet d "is_relevant" = none := by
  obtain ⟨h1, _, h3, _, h5⟩ :=
    contract_total_failure_yields_none .B [("confidence", .num (mkRat 1 2))]
      (mkRat 1 2) rfl rfl
  exact ⟨h1, h3 _ (fun fs => by intro h; cases h), h5⟩

/-- C9 — for every parseable object: a missing confidence defaults to 0.9,
any present numeric confidence is clamped into [0,1] when stored (hence
before any threshold comparison), and a missing key_aspects defaults to
the empty list. -/
theorem confidence_defaulted_and_clamped (llm : LLMBackend) (fields : PyDict) :
    (dictGet fields "confidence" = none →
      ∃ d, safe_llm_completion (some llm) (.parsed (.obj fields)) = some d ∧
        dictGet d "confidence" = some (.num (mkRat 9 10))) ∧
    (∀ q : ℚ, dictGet fields "confidence" = some (.num q) →
      ∃ d, safe_llm_completion (some llm) (.parsed (.obj fields)) = some d ∧
        dictGet d "confidence" = some (.num (pyMax 0 (pyMin 1 q)))) ∧
    (∀ c : ℚ,
      pyFloat (dictGetD fields "confidence" (.num (mkRat 9 10))) = some c →
      dictGet fields "key_aspects" = none →
      ∃ d, safe_llm_completion (some llm) (.parsed (.obj fields)) = some d ∧
        dictGet d "key_aspects" = some (.arr [])) := by
  have hconfGet : ∀ c : ℚ,
      pyFloat (dictGetD fields "confidence" (.num (mkRat 9 10))) = some c →
      ∃ d, safe_llm_completion (some llm) (.parsed (.obj fields)) = some d ∧
        dictGet d "confidence" = some (.num (pyMax 0 (pyMin 1 c))) := by
    intro c hc
    refine ⟨_, safe_llm_completion_parsed_obj llm fields c hc, ?_⟩
    have h1 : dictGet (dictSet fields "confidence" (.num (pyMax 0 (pyMin 1 c))))
        "confidence" = some (.num (pyMax 0 (pyMin 1 c))) :=
      dictGet_dictSet_self _ _ _
    by_cases hk : dictHas (dictSet fields "confidence"
        (.num (pyMax 0 (pyMin 1 c)))) "key_aspects"
    · simp only [hk, if_true]
      exact h1
    · simp only [Bool.not_eq_true] at hk
      simp only [hk, Bool.false_eq_true, if_false]
      rw [dictGet_dictSet_ne _ _ _ _ (by decide)]
      exact h1
  refine ⟨?_, ?_, ?_⟩
  · intro hnone
    have hd : pyFloat (dictGetD fields "confidence" (.num (mkRat 9 10)))
        = some (mkRat 9 10) := by
      simp [dictGetD, hnone, pyFloat]
    obtain ⟨d, hd1, hd2⟩ := hconfGet _ hd
    refine ⟨d, hd1, ?_⟩
    rw [hd2]
    norm_num [pyMax, pyMin]
  · intro q hq
    have hd : pyFloat (dictGetD fields "confidence" (.num (mkRat 9 10)))
        = some q := by
      simp [dictGetD, hq, pyFloat]
    exact hconfGet _ hd
  · intro c hc hka
    refine ⟨_, safe_llm_completion_parsed_obj llm fields c hc, ?_⟩
    have h1 : dictGet (dictSet fields "confidence" (.num (pyMax 0 (pyMin 1 c))))
        "key_aspects" = none := by
      rw [dictGet_dictSet_ne _ _ _ _ (by decide)]
      exact hka
    have hk : dictHas (dictSet fields "confidence"
        (.num (pyMax 0 (pyMin 1 c)))) "key_aspects" = false := by
      simp [dictHas, h1]
    simp only [hk, Bool.false_eq_true, if_false]
    exact dictGet_dictSet_self _ _ _

/-- C9 — witness: raw confidence 1.4 is stored clamped to 1.0, a missing
confidence becomes 0.9, and a missing key_aspects becomes the empty list. -/
theorem confidence_defaulted_and_clamped_witness :
    (∃ d, safe_llm_completion (some .A)
        (.parsed (.obj [("confidence", .num (mkRat 14 10))])) = some d ∧
      dictGet d "confidence" = some (.num 1)) ∧
    (∃ d, safe_llm_completion (some .A)
        (.parsed (.obj [("is_relevant", .bool true)])) = some d ∧
      dictGet d "confidence" = some (.num (mkRat 9 10))) ∧
    (∃ d, safe_llm_completion (some .A)
        (.parsed (.obj [("confidence", .num (mkRat 14 10))])) = some d ∧
      dictGet d "key_aspects" = some (.arr [])) := by
  obtain ⟨h1, h2, h3⟩ :=
    confidence_defaulted_and_clamped .A [("confidence", .num (mkRat 14 10))]
  obtain ⟨hd1, hd2, _⟩ :=
    confidence_defaulted_and_clamped .A [("is_relevant", .bool true)]
  refine ⟨?_, hd1 rfl, h3 (mkRat 14 10) rfl rfl⟩
  obtain ⟨d, hda, hdb⟩ := h2 (mkRat 14 10) rfl
  refine ⟨d, hda, ?_⟩
  rw [hdb]
  norm_num [pyMax, pyMin, mkRat]

/-- `_check_relevance` on a result with a numeric confidence and a boolean
relevance flag is exactly the accept decision. -/
theorem check_relevance_num (s : SettingsModel) (r : PyDict) (c : ℚ) (b : Bool)
    (hc : dictGet r "confidence" = some (.num c))
    (hr : dictGet r "is_relevant" = some (.bool b)) :
    check_relevance s r = .ok (.bool (accept s c b)) := by
  unfold check_relevance accept
  rw [hc]
  by_cases h : c < s.LLM_CONFIDENCE_THRESHOLD
  · have hd : decide (s.LLM_CONFIDENCE_THRESHOLD ≤ c) = false := by
      simp [not_le.mpr h]
    simp [h, hd]
  · have hd : decide (s.LLM_CONFIDENCE_THRESHOLD ≤ c) = true := by
      simp [not_lt.mp h]
    simp [h, hd, hr]

/-- Evaluation of the merged dict of the multi-LLM branch on two well-formed
backend results: the decision is the conjunction of the accept decisions and
the confidence is the minimum of the two confidences. -/
theorem multiOutput_eq (s : SettingsModel) (r1 r2 : PyDict)
    (c1 c2 : ℚ) (b1 b2 : Bool) (pt rs ka : JsonValue)
    (hc1 : dictGet r1 "confidence" = some (.num c1))
    (hr1 : dictGet r1 "is_relevant" = some (.bool b1))
    (hc2 : dictGet r2 "confidence" = some (.num c2))
    (hr2 : dictGet r2 "is_relevant" = some (.bool b2))
    (hp : dictGet r1 "primary_topic" = some pt)
    (hrs : dictGet r1 "reason" = some rs)
    (hka : dictGet r1 "key_aspects" = some ka) :
    multiOutput s r1 r2 = .ok
      { is_relevant := .bool (accept s c1 b1 && accept s c2 b2),
        confidence := pyMin c1 c2,
        primary_topic := some pt,
        reason := if accept s c1 b1 && accept s c2 b2 then rs
                  else .str "Confidence threshold not met",
        key_aspects := some (if accept s c1 b1 && accept s c2 b2 then ka
                             else .arr []),
        validation_status := "multi_llm" } := by
  have h1 := check_relevance_num s r1 c1 b1 hc1 hr1
  have h2 := check_relevance_num s r2 c2 b2 hc2 hr2
  unfold multiOutput
  rw [h1]
  cases hA : accept s c1 b1 with
  | false =>
    simp [truthy, getNum, getKey, hc1, hc2, hp, hA]
  | true =>
    simp only [truthy, if_true, h2]
    cases hB : accept s c2 b2 with
    | false => simp [truthy, getNum, getKey, hc1, hc2, hp, hB]
    | true => simp [truthy, getNum, getKey, hc1, hc2, hp, hrs, hka, hB]

/-- Evaluation of the single-validator dict on a well-formed backend result. -/
theorem singleOutput_eq (s : SettingsModel) (r : PyDict)
    (c : ℚ) (b : Bool) (pt rs ka : JsonValue)
    (hc : dictGet r "confidence" = some (.num c))
    (hr : dictGet r "is_relevant" = some (.bool b))
    (hp : dictGet r "primary_topic" = some pt)
    (hrs : dictGet r "reason" = some rs)
    (hka : dictGet r "key_aspects" = some ka) :
    singleOutput s r = .ok
      { is_relevant := .bool (accept s c b),
        confidence := c,
        primary_topic := some pt,
        reason := if accept s c b then rs else .str "Confidence threshold not met",
        key_aspects := some (if accept s c b then ka else .arr []),
        validation_status := "single_llm" } := by
  have h1 := check_relevance_num s r c b hc hr
  unfold singleOutput
  rw [h1]
  cases hA : accept s c b with
  | false => simp [truthy, getNum, getKey, hc, hp, hA]
  | true => simp [truthy, getNum, getKey, hc, hp, hrs, hka, hA]

/-- Every successful value of the single-validator dict carries the
`single_llm` status. -/
theorem singleOutput_ok_status (s : SettingsModel) (r : PyDict)
    (out : ValidationOutput) (h : singleOutput s r = .ok out) :
    out.validation_status = "single_llm" := by
  unfold singleOutput at h
  repeat' split at h
  all_goals try cases h
  all_goals rfl

/-- The single-validator tail always ends in a `single_llm` or an `error`
status. -/
theorem singlePhase_status (s : SettingsModel) (v : ContentValidator)
    (os : List CompletionOutcome) :
    (singlePhase s v os).output.validation_status = "single_llm" ∨
    (singlePhase s v os).output.validation_status = "error" := by
  unfold singlePhase
  split
  · simp only []
    split
    · split
      · rename_i out hout
        exact Or.inl (singleOutput_ok_status _ _ _ hout)
      · exact Or.inr rfl
    · exact Or.inr rfl
  · exact Or.inr rfl

/-- The single-validator tail never changes the validator state, and calls
exactly the selected backend (or none when no backend is available). -/
theorem singlePhase_state_calls (s : SettingsModel) (v : ContentValidator)
    (os : List CompletionOutcome) :
    (singlePhase s v os).state = v ∧
    (singlePhase s v os).calls =
      (match (if v.use_multi_llm then v.validator1 else v.validator) with
       | some llm => [some llm]
       | none => []) := by
  unfold singlePhase
  split
  · exact ⟨rfl, rfl⟩
  · exact ⟨rfl, rfl⟩

/-- C1 — counterexample. After backend A fails in multi mode the validator
demotes permanently and retries the item in the same call, but both the retry
and every subsequent call go to backend A (the code sets
`self.validator = self.validator1`), not to backend B as the claim states. -/
theorem multi_fallback_uses_backend_a_counterexample :
    (process defaultSettings multiValidator sampleItem
        [.callFailed, .parsed (.obj relevantDict)]).state.use_multi_llm = false ∧
    (process defaultSettings multiValidator sampleItem
        [.callFailed, .parsed (.obj relevantDict)]).state.validator = some .A ∧
    (process defaultSettings multiValidator sampleItem
        [.callFailed, .parsed (.obj relevantDict)]).calls = [some .A, some .A] ∧
    (process defaultSettings multiValidator sampleItem
        [.callFailed, .parsed (.obj relevantDict)]).output.validation_status
      = "single_llm" ∧
    (process defaultSettings
        (process defaultSettings multiValidator sampleItem
          [.callFailed, .parsed (.obj relevantDict)]).state sampleItem
        [.parsed (.obj relevantDict)]).calls = [some .A] ∧
    (process defaultSettings
        (process defaultSettings multiValidator sampleItem
          [.callFailed, .parsed (.obj relevantDict)]).state sampleItem
        [.parsed (.obj relevantDict)]).calls ≠ [some .B] := by
  refine ⟨rfl, rfl, rfl, rfl, rfl, ?_⟩
  decide

/-- C1 — amended: in multi mode with both backends, a total failure of
backend A demotes the validator permanently to single mode **with backend A
as the sole validator**, retries the same item via backend A within the same
call, and every subsequent call on the instance uses backend A only. -/
theorem multi_fallback_permanent_demotion_to_backend_a (s : SettingsModel)
    (v : ContentValidator) (a b : LLMBackend) (item : ContentItem)
    (o1 : CompletionOutcome) (rest : List CompletionOutcome)
    (h1 : v.use_multi_llm = true) (h2 : v.validator1 = some a)
    (h3 : v.validator2 = some b)
    (hfail : safe_llm_completion (some a) o1 = none) :
    (process s v item (o1 :: rest)).state.use_multi_llm = false ∧
    (process s v item (o1 :: rest)).state.validator = some a ∧
    (process s v item (o1 :: rest)).calls = [some a, some a] ∧
    ∀ (item2 : ContentItem) (os2 : List CompletionOutcome),
      (process s (process s v item (o1 :: rest)).state item2 os2).calls
        = [some a] ∧
      (process s (process s v item (o1 :: rest)).state item2 os2).state
        = (process s v item (o1 :: rest)).state := by
  simp [process, singlePhase, takeOutcome, optTruthy, h1, h2, h3, hfail]

/-- C1 — witness for the amended theorem at a concrete failing first call. -/
theorem multi_fallback_permanent_demotion_to_backend_a_witness :
    (process defaultSettings multiValidator sampleItem
        [.unparseable, .parsed (.obj relevantDict)]).state.use_multi_llm = false ∧
    (process defaultSettings multiValidator sampleItem
        [.unparseable, .parsed (.obj relevantDict)]).state.validator
      = some .A ∧
    (process defaultSettings multiValidator sampleItem
        [.unparseable, .parsed (.obj relevantDict)]).calls
      = [some .A, some .A] := by
  obtain ⟨hA, hB, hC, _⟩ := multi_fallback_permanent_demotion_to_backend_a
    defaultSettings multiValidator .A .B sampleItem .unparseable
    [.parsed (.obj relevantDict)] rfl rfl rfl rfl
  exact ⟨hA, hB, hC⟩

/-- C2 — in multi mode, when both backends return parseable results with
numeric confidences and boolean relevance flags, the merged decision is the
conjunction of the two accept decisions (each: threshold met and relevance
claimed), the merged confidence is the minimum of the two, the status is
`multi_llm`, and the validator state is unchanged. -/
theorem multi_consensus_and_min_confidence (s : SettingsModel)
    (v : ContentValidator) (a b : LLMBackend) (item : ContentItem)
    (o1 o2 : CompletionOutcome) (rest : List CompletionOutcome)
    (r1 r2 : PyDict) (c1 c2 : ℚ) (b1 b2 : Bool) (pt rs ka : JsonValue)
    (h1 : v.use_multi_llm = true) (h2 : v.validator1 = some a)
    (h3 : v.validator2 = some b)
    (hs1 : safe_llm_completion (some a) o1 = some r1)
    (hs2 : safe_llm_completion (some b) o2 = some r2)
    (hc1 : dictGet r1 "confidence" = some (.num c1))
    (hr1 : dictGet r1 "is_relevant" = some (.bool b1))
    (hc2 : dictGet r2 "confidence" = some (.num c2))
    (hr2 : dictGet r2 "is_relevant" = some (.bool b2))
    (hp : dictGet r1 "primary_topic" = some pt)
    (hrs : dictGet r1 "reason" = some rs)
    (hka : dictGet r1 "key_aspects" = some ka) :
    (process s v item (o1 :: o2 :: rest)).output.is_relevant
      = .bool (accept s c1 b1 && accept s c2 b2) ∧
    (process s v item (o1 :: o2 :: rest)).output.confidence = pyMin c1 c2 ∧
    (process s v item (o1 :: o2 :: rest)).output.validation_status
      = "multi_llm" ∧
    (process s v item (o1 :: o2 :: rest)).state = v := by
  have hr1ne : r1.isEmpty = false := by
    cases r1
    · simp [dictGet] at hc1
    · rfl
  have hr2ne : r2.isEmpty = false := by
    cases r2
    · simp [dictGet] at hc2
    · rfl
  have hmo := multiOutput_eq s r1 r2 c1 c2 b1 b2 pt rs ka
    hc1 hr1 hc2 hr2 hp hrs hka
  simp [process, takeOutcome, optTruthy, h1, h2, h3, hs1, hs2,
    hr1ne, hr2ne, hmo]

/-- C2 — witness: backend A at 0.95/relevant, backend B at 0.40/relevant,
threshold 0.9 merge to `is_relevant = false`, confidence 0.40, `multi_llm`. -/
theorem multi_consensus_and_min_confidence_witness :
    (process defaultSettings multiValidator sampleItem
        [.parsed (.obj relevantDict), .parsed (.obj lowConfDict)]).output.is_relevant
      = .bool false ∧
    (process defaultSettings multiValidator sampleItem
        [.parsed (.obj relevantDict), .parsed (.obj lowConfDict)]).output.confidence
      = mkRat 4 10 ∧
    (process defaultSettings multiValidator sampleItem
        [.parsed (.obj relevantDict), .parsed (.obj lowConfDict)]).output.validation_status
      = "multi_llm" := by
  obtain ⟨hA, hB, hC, _⟩ := multi_consensus_and_min_confidence
    defaultSettings multiValidator .A .B sampleItem
    (.parsed (.obj relevantDict)) (.parsed (.obj lowConfDict)) []
    relevantDict lowConfDict (mkRat 95 100) (mkRat 4 10) true true
    (.str "agentic attacks") (.str "on topic") (.arr [.str "prompt injection"])
    rfl rfl rfl rfl rfl rfl rfl rfl rfl rfl rfl rfl
  have hval : (accept defaultSettings (mkRat 95 100) true
      && accept defaultSettings (mkRat 4 10) true) = false := by decide
  have hmin : pyMin (mkRat 95 100) (mkRat 4 10) = mkRat 4 10 := by decide
  exact ⟨by rw [hA, hval], by rw [hB, hmin], hC⟩

/-- C4 — at construction with multi mode requested, when only the second
backend is available the code does **not** demote to it: the instance keeps
`use_multi_llm = True` with no usable single validator, and every later
`process` call returns a `validation_status = "error"` dict without ever
calling backend B — contradicting both the specification and the code's own
"validation will be skipped" log message. -/
theorem second_backend_only_yields_error_status :
    (setup_llms true false none (some .B) none).use_multi_llm = true ∧
    (setup_llms true false none (some .B) none).validator = none ∧
    (setup_llms true false none (some .B) none).validator1 = none ∧
    (setup_llms true false none (some .B) none).validator2 = some .B ∧
    ∀ (s : SettingsModel) (item : ContentItem) (os : List CompletionOutcome),
      (process s (setup_llms true false none (some .B) none) item os).output.validation_status
        = "error" ∧
      (process s (setup_llms true false none (some .B) none) item os).calls
        = [] ∧
      (process s (setup_llms true false none (some .B) none) item os).output.is_relevant
        = .bool false :=
  ⟨rfl, rfl, rfl, rfl, fun _s _item _os => ⟨rfl, rfl, rfl⟩⟩

/-- C6 — in multi mode, when backend A returns a parseable result but
backend B's call fails, the call falls through to a single-mode completion
on backend A (calls A, B, then A again) for that call only: the state is
unchanged (no demotion, `use_multi_llm` stays true) and the result is a
`single_llm` or `error` status, never `multi_llm`. -/
theorem backend_b_failure_no_demotion (s : SettingsModel)
    (v : ContentValidator) (a b : LLMBackend) (item : ContentItem)
    (o1 o2 : CompletionOutcome) (rest : List CompletionOutcome) (r1 : PyDict)
    (h1 : v.use_multi_llm = true) (h2 : v.validator1 = some a)
    (h3 : v.validator2 = some b)
    (hs1 : safe_llm_completion (some a) o1 = some r1) (hne : r1 ≠ [])
    (hs2 : safe_llm_completion (some b) o2 = none) :
    (process s v item (o1 :: o2 :: rest)).state = v ∧
    (process s v item (o1 :: o2 :: rest)).calls = [some a, some b, some a] ∧
    ((process s v item (o1 :: o2 :: rest)).output.validation_status
        = "single_llm" ∨
     (process s v item (o1 :: o2 :: rest)).output.validation_status
        = "error") := by
  have hr1ne : r1.isEmpty = false := by
    cases r1
    · exact absurd rfl hne
    · rfl
  have hsp := singlePhase_state_calls s v rest
  have hst := singlePhase_status s v rest
  have hcalls : (singlePhase s v rest).calls = [some a] := by
    rw [hsp.2, h1]
    simp [h2]
  simp [process, takeOutcome, optTruthy, h1, h2, h3, hs1, hs2, hr1ne,
    hsp.1, hcalls, hst]

/-- C6 — witness at a concrete parseable-A / failing-B call. -/
theorem backend_b_failure_no_demotion_witness :
    (process defaultSettings multiValidator sampleItem
        [.parsed (.obj relevantDict), .callFailed,
         .parsed (.obj relevantDict)]).state = multiValidator ∧
    (process defaultSettings multiValidator sampleItem
        [.parsed (.obj relevantDict), .callFailed,
         .parsed (.obj relevantDict)]).calls
      = [some .A, some .B, some .A] := by
  obtain ⟨hA, hB, _⟩ := backend_b_failure_no_demotion
    defaultSettings multiValidator .A .B sampleItem
    (.parsed (.obj relevantDict)) .callFailed [.parsed (.obj relevantDict)]
    relevantDict rfl rfl rfl rfl (by unfold relevantDict; exact List.cons_ne_nil _ _) rfl
  exact ⟨hA, hB⟩

/-- An item whose date string the recency filter cannot parse. -/
def badDateItem : ContentItem :=
  { source := "rss", content := "ai stuff", url := "https://x/bad",
    title := "", date := some "not-a-date", metadata := [] }

/-- An item with no date (kept by the fail-open recency policy). -/
def freshItem : ContentItem :=
  { source := "rss", content := "ai stuff", url := "https://x/good",
    title := "", date := none, metadata := [] }

/-- If some item in the list has a date the filter cannot parse, the whole
recency-filter traversal raises. -/
theorem date_filter_error_of_mem (now : NaiveDT) (l : List ContentItem)
    (item : ContentItem) (msg : String) (hmem : item ∈ l)
    (herr : is_older_than_10_days now item.date = .error msg) :
    ∃ e, date_filter now l = .error e := by
  induction l with
  | nil => cases hmem
  | cons a t ih =>
    rcases List.mem_cons.mp hmem with h | h
    · subst h
      exact ⟨msg, by simp [date_filter, herr]⟩
    · cases ho : is_older_than_10_days now a.date with
      | error e => exact ⟨e, by simp [date_filter, ho]⟩
      | ok older =>
        obtain ⟨e, he⟩ := ih h
        exact ⟨e, by simp [date_filter, ho, he]⟩

/-- C3 — counterexample. A batch with an unparseable-date item aborts whole:
`process_content` returns the date-format error and produces no results,
even though the same remaining item is processed fine on its own — the
per-item handler does not cover the recency filter, contradicting the claim
that only the offending item is skipped. -/
theorem date_error_aborts_batch_counterexample :
    process_content defaultSettings ["ai"] ⟨2025, 1, 1, 0, 0, 0⟩
        (setup_llms false false none none (some .A)) (some .A)
        [.parsed (.obj relevantDict)] [some (.obj [("title", .str "T")])]
        [badDateItem, freshItem]
      = .error "Date format for not-a-date not recognized" ∧
    process_content defaultSettings ["ai"] ⟨2025, 1, 1, 0, 0, 0⟩
        (setup_llms false false none none (some .A)) (some .A)
        [.parsed (.obj relevantDict)] [some (.obj [("title", .str "T")])]
        [freshItem]
      = .ok [build_processed_item freshItem
          (summarizer_process (some .A) freshItem
            (some (.obj [("title", .str "T")])))] :=
  ⟨rfl, rfl⟩

/-- C3 — amended: an item whose date matches none of the recognized patterns
makes the recency filter raise a date-format error, and — the per-item
handler covering only the validate/summarize stage — the error propagates
out of `process_content`, aborting the remaining items of the batch. -/
theorem date_error_propagates_out_of_batch (s : SettingsModel)
    (kws : List String) (now : NaiveDT) (v : ContentValidator)
    (sumLLM : Option LLMBackend) (vs : List CompletionOutcome)
    (ss : List (Option JsonValue)) (content : List ContentItem)
    (item : ContentItem) (msg : String)
    (hmem : item ∈ content) (hkw : matches_keywords kws item = true)
    (herr : is_older_than_10_days now item.date = .error msg) :
    ∃ e, process_content s kws now v sumLLM vs ss content = .error e := by
  have hne : content.isEmpty = false := by
    cases content
    · cases hmem
    · rfl
  have hmemf : item ∈ content.filter (matches_keywords kws) :=
    List.mem_filter.mpr ⟨hmem, hkw⟩
  obtain ⟨e, he⟩ := date_filter_error_of_mem now _ item msg hmemf herr
  exact ⟨e, by simp [process_content, hne, he]⟩

/-- C3 — witness for the amended theorem at a concrete two-item batch. -/
theorem date_error_propagates_out_of_batch_witness :
    ∃ e, process_content defaultSettings ["ai"] ⟨2025, 1, 1, 0, 0, 0⟩
        (setup_llms false false none none (some .A)) (some .A)
        [.parsed (.obj relevantDict)] [some (.obj [("title", .str "T")])]
        [freshItem, badDateItem] = .error e :=
  date_error_propagates_out_of_batch defaultSettings ["ai"] ⟨2025, 1, 1, 0, 0, 0⟩
    (setup_llms false false none none (some .A)) (some .A)
    [.parsed (.obj relevantDict)] [some (.obj [("title", .str "T")])]
    [freshItem, badDateItem] badDateItem
    "Date format for not-a-date not recognized"
    (List.mem_cons_of_mem _ (List.mem_singleton.mpr rfl)) rfl rfl

/-- C7 — the keyword filter keeps an item iff some configured keyword occurs
case-insensitively in the title or the content; an empty keyword list passes
everything; a filtered-out item never survives the keyword stage. -/
theorem keyword_filter_contract (kws : List String) (item : ContentItem) :
    (kws = [] → matches_keywords kws item = true) ∧
    (kws ≠ [] →
      (matches_keywords kws item = true ↔
        ∃ kw ∈ kws, strContains (pyLower item.content) (pyLower kw) = true ∨
          strContains (pyLower item.title) (pyLower kw) = true)) ∧
    (matches_keywords kws item = false →
      ∀ content : List ContentItem,
        item ∉ content.filter (matches_keywords kws)) := by
  refine ⟨?_, ?_, ?_⟩
  · intro h
    subst h
    rfl
  · intro h
    have hne : kws.isEmpty = false := by
      cases kws
      · exact absurd rfl h
      · rfl
    simp [matches_keywords, hne, List.any_eq_true, Bool.or_eq_true]
  · intro hf content hmem
    have hsur := (List.mem_filter.mp hmem).2
    rw [hf] at hsur
    cases hsur

/-- C7 — witness: a matched keyword keeps the item, the empty list passes
everything, and an unmatched list rejects the item. -/
theorem keyword_filter_contract_witness :
    matches_keywords ["AI Security"] sampleItem = true ∧
    matches_keywords [] sampleItem = true ∧
    matches_keywords ["quantum"] sampleItem = false := by
  refine ⟨?_, (keyword_filter_contract [] sampleItem).1 rfl, rfl⟩
  exact ((keyword_filter_contract ["AI Security"] sampleItem).2.1
    (by simp)).mpr ⟨"AI Security", by simp, Or.inl rfl⟩

/-- C8 — an empty or missing date string makes the recency filter report
"not older" (the item is kept by the date-filter loop) and never raises. -/
theorem empty_date_never_drops (now : NaiveDT) (item : ContentItem)
    (rest : List ContentItem)
    (h : item.date = none ∨ item.date = some "") :
    is_older_than_10_days now item.date = .ok false ∧
    date_filter now (item :: rest)
      = (date_filter now rest).map (fun l => item :: l) := by
  have h1 : is_older_than_10_days now item.date = .ok false := by
    rcases h with h | h <;> rw [h] <;> rfl
  refine ⟨h1, ?_⟩
  simp only [date_filter, h1]
  cases hd : date_filter now rest <;> simp [Except.map]

/-- C8 — witness at a concrete empty-date item. -/
theorem empty_date_never_drops_witness :
    is_older_than_10_days ⟨2025, 1, 1, 0, 0, 0⟩ freshItem.date = .ok false ∧
    date_filter ⟨2025, 1, 1, 0, 0, 0⟩ [freshItem] = .ok [freshItem] := by
  obtain ⟨h1, h2⟩ :=
    empty_date_never_drops ⟨2025, 1, 1, 0, 0, 0⟩ freshItem [] (Or.inl rfl)
  exact ⟨h1, by rw [h2]; rfl⟩

/-- C10 — the result record spreads the summary after the item-derived
fields: a `title` key in the summary always wins (overwriting the item's
title and the fallback), while `url`, `source` and `date` keep the item's
values whenever the summary does not carry those keys. -/
theorem summary_spread_overwrites_title (item : ContentItem)
    (summary : PyDict) (hnd : (summary.map Prod.fst).Nodup) :
    (∀ t, dictGet summary "title" = some t →
      dictGet (build_processed_item item summary) "title" = some t) ∧
    (dictGet summary "url" = none →
      dictGet (build_processed_item item summary) "url"
        = some (.str item.url)) ∧
    (dictGet summary "source" = none →
      dictGet (build_processed_item item summary) "source"
        = some (.str item.source)) ∧
    (dictGet summary "date" = none →
      dictGet (build_processed_item item summary) "date"
        = some (match item.date with | some d => .str d | none => .null)) := by
  refine ⟨?_, ?_, ?_, ?_⟩
  · intro t ht
    unfold build_processed_item
    rw [dictGet_dictUpdate _ _ _ hnd, ht]
    rfl
  · intro hu
    unfold build_processed_item
    rw [dictGet_dictUpdate _ _ _ hnd, hu]
    rfl
  · intro hs
    unfold build_processed_item
    rw [dictGet_dictUpdate _ _ _ hnd, hs]
    rfl
  · intro hd
    unfold build_processed_item
    rw [dictGet_dictUpdate _ _ _ hnd, hd]
    rfl

/-- C10 — witness: the summarizer's title overwrites the item's, while url,
source and date come from the item. -/
theorem summary_spread_overwrites_title_witness :
    dictGet (build_processed_item sampleItem
        [("title", .str "LLM title"), ("summary", .str "s")]) "title"
      = some (.str "LLM title") ∧
    dictGet (build_processed_item sampleItem
        [("title", .str "LLM title"), ("summary", .str "s")]) "url"
      = some (.str "https://x/1") ∧
    dictGet (build_processed_item sampleItem
        [("title", .str "LLM title"), ("summary", .str "s")]) "source"
      = some (.str "rss") := by
  obtain ⟨h1, h2, h3, _⟩ := summary_spread_overwrites_title sampleItem
    [("title", .str "LLM title"), ("summary", .str "s")] (by simp)
  exact ⟨h1 _ rfl, h2 rfl, h3 rfl⟩
